import Mathlib

/-!
Shallow embedding of `src/app.py` (Agentic AI Smart Study Planner).

The app's locally implemented logic is:
  * `extract_text_from_file` (app.py lines 28-42): reads an uploaded file's
    text, dispatching on the file-name suffix;
  * the submit handler (app.py lines 106-136): validates the deadline,
    computes `days_remaining`, prepares `syllabus_content` and makes a single
    `crew.kickoff` call with templated inputs.

External effects are modelled as data:
  * pdfplumber's behaviour on a file is an oracle carried by the file value
    (`pdfPages` / `pdfError`);
  * Python's `bytes.decode("utf-8")` is modelled by an executable strict
    UTF-8 decoder (`pyDecodeUtf8`), `none` meaning `UnicodeDecodeError`;
  * the LLM call itself is opaque; the handler's outcome records the exact
    templated inputs passed to `crew.kickoff`.

Python strings are Lean `String`s; the Python string operations used by the
code (`endswith`, slicing `s[:n]`, truthiness of `s.strip()`) are defined
over the code-point list `String.data`, matching Python's code-point
semantics.
-/

/-- Python `s.endswith(suffix)`: a case-sensitive code-point suffix test. -/
def pyEndsWith (s suf : String) : Bool :=
  List.isSuffixOf suf.data s.data

/-- Python slicing `s[:n]`: the first `n` code points of `s`. -/
def pySlice (s : String) (n : Nat) : String :=
  ⟨s.data.take n⟩

/-- The set of characters Python's `str.strip()` (no arguments) removes:
ASCII whitespace, the ASCII separator controls, and the Unicode space
characters. -/
def isPyWhitespace (c : Char) : Bool :=
  c.toNat ∈ [0x09, 0x0A, 0x0B, 0x0C, 0x0D, 0x1C, 0x1D, 0x1E, 0x1F, 0x20,
             0x85, 0xA0, 0x1680, 0x2000, 0x2001, 0x2002, 0x2003, 0x2004,
             0x2005, 0x2006, 0x2007, 0x2008, 0x2009, 0x200A, 0x2028, 0x2029,
             0x202F, 0x205F, 0x3000]

/-- Truthiness test `not s.strip()` from app.py line 115: true iff every
code point of `s` is whitespace (in particular for the empty string). -/
def pyStripEmpty (s : String) : Bool :=
  s.data.all isPyWhitespace

/-- Strict UTF-8 decoding of a byte list, modelling Python's
`bytes.decode("utf-8")`: rejects stray continuation bytes, overlong
encodings, surrogate code points and values above `0x10FFFF`; `none`
models a raised `UnicodeDecodeError`. -/
def utf8DecodeChars : List Nat → Option (List Char)
  | [] => some []
  | b :: bs =>
    if b < 0x80 then
      (utf8DecodeChars bs).map (fun cs => Char.ofNat b :: cs)
    else if b < 0xC2 then
      none
    else if b < 0xE0 then
      match bs with
      | b1 :: bs1 =>
        if 0x80 ≤ b1 && b1 < 0xC0 then
          (utf8DecodeChars bs1).map
            (fun cs => Char.ofNat ((b - 0xC0) * 0x40 + (b1 - 0x80)) :: cs)
        else none
      | [] => none
    else if b < 0xF0 then
      match bs with
      | b1 :: b2 :: bs2 =>
        if 0x80 ≤ b1 && b1 < 0xC0 && 0x80 ≤ b2 && b2 < 0xC0 then
          let c := (b - 0xE0) * 0x1000 + (b1 - 0x80) * 0x40 + (b2 - 0x80)
          if c < 0x800 || (0xD800 ≤ c && c < 0xE000) then none
          else (utf8DecodeChars bs2).map (fun cs => Char.ofNat c :: cs)
        else none
      | _ => none
    else if b < 0xF5 then
      match bs with
      | b1 :: b2 :: b3 :: bs3 =>
        if 0x80 ≤ b1 && b1 < 0xC0 && 0x80 ≤ b2 && b2 < 0xC0 &&
            0x80 ≤ b3 && b3 < 0xC0 then
          let c := (b - 0xF0) * 0x40000 + (b1 - 0x80) * 0x1000 +
            (b2 - 0x80) * 0x40 + (b3 - 0x80)
          if c < 0x10000 || 0x110000 ≤ c then none
          else (utf8DecodeChars bs3).map (fun cs => Char.ofNat c :: cs)
        else none
      | _ => none
    else none

/-- Python `bytes.decode("utf-8")` on a byte list, as a string;
`none` models a raised `UnicodeDecodeError`. -/
def pyDecodeUtf8 (bytes : List Nat) : Option String :=
  (utf8DecodeChars bytes).map (fun cs => ⟨cs⟩)

/-- An uploaded file as `extract_text_from_file` sees it: its `name`, the raw
bytes returned by `getvalue()`, and an oracle for the external pdfplumber
calls.  `pdfPages` lists the `page.extract_text()` results (`none` for a page
returning `None`) for the pages the `for` loop iterates inside the
`with pdfplumber.open(...)` block before any exception; `pdfError` is
`some e` when `pdfplumber.open` or the page loop raised `e` (caught by the
`except` at app.py line 38), so that `pdfPages` is a proper prefix of the
document's pages, and `none` when the whole block ran without error. -/
structure UploadedFile where
  name : String
  content : List Nat
  pdfPages : List (Option String)
  pdfError : Option String
deriving DecidableEq

/-- The accumulation loop of app.py lines 34-37:
`for page in pdf.pages: page_text = page.extract_text();
 if page_text: text += page_text + "\n"`.
A page is skipped when `extract_text()` returned `None` or an empty
string (Python truthiness of `page_text`). -/
def pdfTextLoop : List (Option String) → String → String
  | [], text => text
  | pt :: ps, text =>
    match pt with
    | some t => if t.data.isEmpty then pdfTextLoop ps text
                else pdfTextLoop ps (text ++ t ++ "\n")
    | none => pdfTextLoop ps text

/-- `extract_text_from_file` (app.py lines 28-42).  The returned value is
`some` the string the Python function returns, and `none` when an uncaught
exception escapes it (the `.txt` branch's `decode("utf-8")` on invalid
bytes; the `.pdf` branch's exceptions are caught by its `try`/`except`,
which only shows an error message, keeping the text accumulated so far). -/
def extract_text_from_file (uploaded_file : Option UploadedFile) : Option String :=
  let text := ""
  match uploaded_file with
  | none => some text
  | some f =>
    if pyEndsWith f.name ".pdf" then
      some (pdfTextLoop f.pdfPages text)
    else if pyEndsWith f.name ".txt" then
      pyDecodeUtf8 f.content
    else
      some text

/-- A proleptic-Gregorian calendar date, as Python's `datetime.date`. -/
structure Date where
  year : Nat
  month : Nat
  day : Nat
deriving DecidableEq

/-- Leap-year test of the Gregorian calendar. -/
def isLeapYear (y : Nat) : Bool :=
  (y % 4 == 0 && y % 100 != 0) || y % 400 == 0

/-- Days in the months before month `m` of year `y`. -/
def daysBeforeMonth (y m : Nat) : Nat :=
  [0, 31, 59, 90, 120, 151, 181, 212, 243, 273, 304, 334].getD (m - 1) 0 +
    (if 2 < m && isLeapYear y then 1 else 0)

/-- Python's `date.toordinal()`: day number counting from `0001-01-01 = 1`
in the proleptic Gregorian calendar. -/
def Date.toOrdinal (d : Date) : Nat :=
  365 * (d.year - 1) + (d.year - 1) / 4 - (d.year - 1) / 100 +
    (d.year - 1) / 400 + daysBeforeMonth d.year d.month + d.day

/-- Python's `(d1 - d2).days` on `datetime.date` values: the signed
difference of ordinals. -/
def dateDiffDays (d1 d2 : Date) : Int :=
  (d1.toOrdinal : Int) - (d2.toOrdinal : Int)

/-- Decimal rendering left-padded with zeros to width `w`, as in the
`%04d`/`%02d` fields of `date.__str__`. -/
def padZero (w n : Nat) : String :=
  ⟨List.replicate (w - (toString n).data.length) '0' ++ (toString n).data⟩

/-- Python `str(d)` on a `datetime.date`: ISO format `YYYY-MM-DD`. -/
def Date.isoStr (d : Date) : String :=
  padZero 4 d.year ++ "-" ++ padZero 2 d.month ++ "-" ++ padZero 2 d.day

/-- The keyword inputs of the `crew.kickoff` call (app.py lines 130-136). -/
structure KickoffInputs where
  subject : String
  deadline : String
  current_date : String
  days_left : String
  syllabus_text : String
deriving DecidableEq

/-- The fallback syllabus text of app.py line 116. -/
def fallbackSyllabus : String :=
  "No syllabus provided. Please generate a standard comprehensive curriculum based on the subject name."

/-- Outcome of one run of the submit branch (app.py lines 106-163):
`deadlineError` is the sidebar error with no file extraction and no LLM
call; `uncaught` is an exception escaping before the `crew` block (the
`.txt` UTF-8 decode error); `llmCall i` is the single `crew.kickoff` call,
made with templated inputs `i`. -/
inductive SubmitOutcome where
  | deadlineError : SubmitOutcome
  | uncaught : SubmitOutcome
  | llmCall : KickoffInputs → SubmitOutcome
deriving DecidableEq

/-- The submit handler (app.py lines 106-136): `today = date.today()`,
`days_remaining = (date - today).days`; if `days_remaining <= 0` show the
sidebar error, otherwise extract the syllabus text, replace a
whitespace-only extraction by the fallback text and truncate a non-empty
one to 15000 characters, then call `crew.kickoff` with the templated
inputs. -/
def handleSubmit (sub : String) (date : Date) (uploaded_file : Option UploadedFile)
    (today : Date) : SubmitOutcome :=
  let days_remaining : Int := dateDiffDays date today
  if days_remaining ≤ 0 then
    SubmitOutcome.deadlineError
  else
    match extract_text_from_file uploaded_file with
    | none => SubmitOutcome.uncaught
    | some extracted =>
      let syllabus_content :=
        if pyStripEmpty extracted then fallbackSyllabus
        else pySlice extracted 15000
      SubmitOutcome.llmCall
        ⟨sub, date.isoStr, today.isoStr, toString days_remaining, syllabus_content⟩

/-- The templated inputs of the outcome's LLM call, when one is made. -/
def SubmitOutcome.kickoffInputs? : SubmitOutcome → Option KickoffInputs
  | SubmitOutcome.llmCall i => some i
  | _ => none

/-- Specification-side reading of the PDF extraction result: the
concatenation, in page order, of each page's extracted text followed by a
newline, skipping pages whose extraction yields no text (`None` or an
empty string). -/
def pagesSpecConcat : List (Option String) → String
  | [] => ""
  | pt :: ps =>
    (match pt with
     | some t => if t.data.isEmpty then "" else t ++ "\n"
     | none => "") ++ pagesSpecConcat ps

theorem empty_strAppend (s : String) : "" ++ s = s := by
  cases s
  rfl

theorem pdfTextLoop_append (ps : List (Option String)) :
    ∀ text, pdfTextLoop ps text = text ++ pagesSpecConcat ps := by
  induction ps with
  | nil =>
    intro text
    simp [pdfTextLoop, pagesSpecConcat, String.append_empty]
  | cons pt ps ih =>
    intro text
    cases pt with
    | none =>
      simp only [pdfTextLoop, pagesSpecConcat, ih, empty_strAppend]
    | some t =>
      by_cases ht : t.data.isEmpty
      · simp [pdfTextLoop, pagesSpecConcat, ht, ih, empty_strAppend]
      · simp [pdfTextLoop, pagesSpecConcat, ht, ih, empty_strAppend,
          String.append_assoc]

theorem ends_txt_not_pdf {s : String} (h : pyEndsWith s ".txt" = true) :
    pyEndsWith s ".pdf" = false := by
  by_contra hc
  rw [Bool.not_eq_false] at hc
  unfold pyEndsWith at h hc
  rw [List.isSuffixOf_iff_suffix] at h hc
  obtain ⟨t1, h1⟩ := h
  obtain ⟨t2, h2⟩ := hc
  have e1 : s.data.getLast? = some 't' := by
    rw [← h1, List.getLast?_append_of_ne_nil t1 (by decide)]
    decide
  have e2 : s.data.getLast? = some 'f' := by
    rw [← h2, List.getLast?_append_of_ne_nil t2 (by decide)]
    decide
  rw [e1] at e2
  exact absurd e2 (by decide)

/-- C1: for every form submission the handler validates that the deadline is
in the future: the sidebar-error outcome — under which no file extraction and
no LLM call happens — is taken exactly when `(deadline - today).days <= 0`;
when the difference is positive the handler proceeds to plan generation
instead. -/
theorem c1_deadline_future_validation (sub : String) (date : Date)
    (f : Option UploadedFile) (today : Date) :
    handleSubmit sub date f today = SubmitOutcome.deadlineError ↔
      dateDiffDays date today ≤ 0 := by
  unfold handleSubmit
  by_cases h : dateDiffDays date today ≤ 0
  · simp [h]
  · simp only [h, if_neg, if_false]
    cases hx : extract_text_from_file f <;> simp [h]

theorem c1_deadline_future_validation_witness :
    handleSubmit "Machine Learning" ⟨2025, 10, 10⟩ none ⟨2025, 10, 12⟩ =
      SubmitOutcome.deadlineError :=
  (c1_deadline_future_validation "Machine Learning" ⟨2025, 10, 10⟩ none
    ⟨2025, 10, 12⟩).mpr (by decide)

/-- C2: `days_remaining` is the signed day difference `(date - today).days`
between the chosen deadline and today; this exact value is what is compared
with zero, and its string form is forwarded as the `days_left` input of the
LLM call. -/
theorem c2_days_remaining_value (sub : String) (date : Date)
    (f : Option UploadedFile) (today : Date) :
    (dateDiffDays date today ≤ 0 →
      handleSubmit sub date f today = SubmitOutcome.deadlineError) ∧
    (∀ ext, extract_text_from_file f = some ext →
      0 < dateDiffDays date today →
      Option.map KickoffInputs.days_left
          (handleSubmit sub date f today).kickoffInputs? =
        some (toString (dateDiffDays date today))) := by
  constructor
  · intro h
    unfold handleSubmit
    simp [h]
  · intro ext hx h
    unfold handleSubmit
    rw [if_neg (by omega), hx]
    rfl

theorem c2_days_remaining_value_witness :
    Option.map KickoffInputs.days_left
        (handleSubmit "Machine Learning" ⟨2025, 10, 15⟩ none
          ⟨2025, 10, 12⟩).kickoffInputs? =
      some (toString (dateDiffDays ⟨2025, 10, 15⟩ ⟨2025, 10, 12⟩)) :=
  (c2_days_remaining_value "Machine Learning" ⟨2025, 10, 15⟩ none
    ⟨2025, 10, 12⟩).2 "" (by decide) (by decide)

/-- C3: when the extracted syllabus text is non-empty after stripping
whitespace, the syllabus content forwarded to the LLM is exactly the first
15000 characters of the extracted text, whose length is therefore at most
15000. -/
theorem c3_truncated_syllabus (sub : String) (date : Date)
    (f : Option UploadedFile) (today : Date) (ext : String)
    (hx : extract_text_from_file f = some ext)
    (hne : pyStripEmpty ext = false)
    (hd : 0 < dateDiffDays date today) :
    Option.map KickoffInputs.syllabus_text
        (handleSubmit sub date f today).kickoffInputs? =
      some (pySlice ext 15000) ∧
    (pySlice ext 15000).data.length ≤ 15000 := by
  constructor
  · unfold handleSubmit
    rw [if_neg (by omega), hx]
    simp [hne, SubmitOutcome.kickoffInputs?]
  · show (ext.data.take 15000).length ≤ 15000
    rw [List.length_take]
    exact min_le_left _ _

theorem c3_truncated_syllabus_witness :
    Option.map KickoffInputs.syllabus_text
        (handleSubmit "Machine Learning" ⟨2025, 10, 15⟩
          (some ⟨"syllabus.txt", [0x68, 0x69], [], none⟩)
          ⟨2025, 10, 12⟩).kickoffInputs? =
      some (pySlice "hi" 15000) ∧
    (pySlice "hi" 15000).data.length ≤ 15000 :=
  c3_truncated_syllabus "Machine Learning" ⟨2025, 10, 15⟩
    (some ⟨"syllabus.txt", [0x68, 0x69], [], none⟩) ⟨2025, 10, 12⟩ "hi"
    (by decide) (by decide) (by decide)

/-- C4: on a submission with a future deadline where no file is uploaded, or
where the extracted text is empty after stripping whitespace, the syllabus
content forwarded to the LLM is the fixed fallback string. -/
theorem c4_fallback_syllabus (sub : String) (date : Date)
    (f : Option UploadedFile) (today : Date)
    (h : f = none ∨ ∃ ext, extract_text_from_file f = some ext ∧
      pyStripEmpty ext = true)
    (hd : 0 < dateDiffDays date today) :
    Option.map KickoffInputs.syllabus_text
        (handleSubmit sub date f today).kickoffInputs? =
      some fallbackSyllabus := by
  rcases h with h | ⟨ext, hx, he⟩
  · subst h
    unfold handleSubmit
    rw [if_neg (by omega)]
    rfl
  · unfold handleSubmit
    rw [if_neg (by omega), hx]
    simp [he, SubmitOutcome.kickoffInputs?]

theorem c4_fallback_syllabus_witness :
    Option.map KickoffInputs.syllabus_text
        (handleSubmit "Machine Learning" ⟨2025, 10, 15⟩ none
          ⟨2025, 10, 12⟩).kickoffInputs? =
      some fallbackSyllabus :=
  c4_fallback_syllabus "Machine Learning" ⟨2025, 10, 15⟩ none ⟨2025, 10, 12⟩
    (Or.inl rfl) (by decide)

/-- C5: for every uploaded file whose name ends with `.txt`,
`extract_text_from_file` returns the file's raw bytes decoded as UTF-8
(the decode raising, i.e. `none`, when the bytes are not valid UTF-8). -/
theorem c5_txt_decoded (f : UploadedFile)
    (h : pyEndsWith f.name ".txt" = true) :
    extract_text_from_file (some f) = pyDecodeUtf8 f.content := by
  unfold extract_text_from_file
  simp [ends_txt_not_pdf h, h]

theorem c5_txt_decoded_witness :
    extract_text_from_file (some ⟨"syllabus.txt", [0x68, 0x69], [], none⟩) =
      pyDecodeUtf8 [0x68, 0x69] :=
  c5_txt_decoded ⟨"syllabus.txt", [0x68, 0x69], [], none⟩ (by decide)

/-- C6: for every uploaded file whose name ends with `.pdf` that the PDF
library opens and iterates without error, `extract_text_from_file` returns
the concatenation, in page order, of each page's extracted text followed by
a newline, skipping pages whose extraction yields no text. -/
theorem c6_pdf_page_concat (f : UploadedFile)
    (hname : pyEndsWith f.name ".pdf" = true)
    (hok : f.pdfError = none) :
    extract_text_from_file (some f) = some (pagesSpecConcat f.pdfPages) := by
  unfold extract_text_from_file
  simp [hname, pdfTextLoop_append, empty_strAppend]

theorem c6_pdf_page_concat_witness :
    extract_text_from_file
        (some ⟨"syllabus.pdf", [], [some "p1", none, some "", some "p2"], none⟩) =
      some (pagesSpecConcat [some "p1", none, some "", some "p2"]) :=
  c6_pdf_page_concat ⟨"syllabus.pdf", [], [some "p1", none, some "", some "p2"], none⟩
    (by decide) rfl

/-- C7 counterexample: `extract_text_from_file` is not total — on a `.txt`
file whose bytes are not valid UTF-8 (here the single byte `0xFF`), the
`getvalue().decode("utf-8")` call at app.py line 41 raises an uncaught
`UnicodeDecodeError` (modelled by `none`), so the function does not return
a string. -/
theorem c7_not_total_counterexample :
    extract_text_from_file (some ⟨"syllabus.txt", [0xFF], [], none⟩) = none := by
  decide

/-- C7 (amended): `extract_text_from_file` returns a string on every input
except a `.txt` file whose raw bytes are not valid UTF-8, where the UTF-8
decode raises; in particular all PDF-library errors are caught by the
`try`/`except` around the external PDF call and still yield a string. -/
theorem c7_total_except_invalid_utf8 (f : Option UploadedFile)
    (h : ∀ g, f = some g → pyEndsWith g.name ".txt" = true →
      pyDecodeUtf8 g.content ≠ none) :
    (extract_text_from_file f).isSome = true := by
  cases f with
  | none => rfl
  | some g =>
    unfold extract_text_from_file
    by_cases hpdf : pyEndsWith g.name ".pdf" = true
    · simp [hpdf]
    · by_cases htxt : pyEndsWith g.name ".txt" = true
      · simp only [hpdf, htxt, if_true, if_false, Bool.false_eq_true]
        exact Option.isSome_iff_ne_none.mpr (h g rfl htxt)
      · simp [hpdf, htxt]

theorem c7_total_except_invalid_utf8_witness :
    (extract_text_from_file (some ⟨"syllabus.txt", [0x68, 0x69], [], none⟩)).isSome
      = true :=
  c7_total_except_invalid_utf8 (some ⟨"syllabus.txt", [0x68, 0x69], [], none⟩)
    (by intro g hg ht; cases hg; decide)

/-- C8 counterexample: a submission with a future deadline (8 days ahead)
and a `.txt` upload whose bytes are not valid UTF-8 makes no LLM call at
all — the decode error at app.py line 41 escapes before the `crew` block is
reached — refuting that every future-deadline submission results in exactly
one `crew.kickoff` call. -/
theorem c8_no_call_counterexample :
    0 < dateDiffDays ⟨2025, 10, 20⟩ ⟨2025, 10, 12⟩ ∧
    handleSubmit "Machine Learning" ⟨2025, 10, 20⟩
        (some ⟨"syllabus.txt", [0xFF], [], none⟩) ⟨2025, 10, 12⟩ =
      SubmitOutcome.uncaught := by
  constructor
  · decide
  · decide

/-- C8 (amended): for every submission with a future deadline on which text
extraction returns (no UTF-8 decode error), exactly one LLM call is made,
and its templated inputs are: `subject` the entered subject, `deadline` the
string form of the chosen date, `current_date` the string form of today,
`days_left` the string form of `days_remaining`, and `syllabus_text` the
truncated-or-fallback syllabus content. -/
theorem c8_single_kickoff_inputs (sub : String) (date : Date)
    (f : Option UploadedFile) (today : Date) (ext : String)
    (hx : extract_text_from_file f = some ext)
    (hd : 0 < dateDiffDays date today) :
    handleSubmit sub date f today = SubmitOutcome.llmCall
      ⟨sub, date.isoStr, today.isoStr, toString (dateDiffDays date today),
        if pyStripEmpty ext = true then fallbackSyllabus
        else pySlice ext 15000⟩ := by
  unfold handleSubmit
  rw [if_neg (by omega), hx]

theorem c8_single_kickoff_inputs_witness :
    handleSubmit "Machine Learning" ⟨2025, 10, 15⟩
        (some ⟨"syllabus.txt", [0x68, 0x69], [], none⟩) ⟨2025, 10, 12⟩ =
      SubmitOutcome.llmCall
        ⟨"Machine Learning", Date.isoStr ⟨2025, 10, 15⟩,
          Date.isoStr ⟨2025, 10, 12⟩,
          toString (dateDiffDays ⟨2025, 10, 15⟩ ⟨2025, 10, 12⟩),
          if pyStripEmpty "hi" = true then fallbackSyllabus
          else pySlice "hi" 15000⟩ :=
  c8_single_kickoff_inputs "Machine Learning" ⟨2025, 10, 15⟩
    (some ⟨"syllabus.txt", [0x68, 0x69], [], none⟩) ⟨2025, 10, 12⟩ "hi"
    (by decide) (by decide)

/-- C9: when no file is uploaded (the argument is `None`),
`extract_text_from_file` returns the empty string. -/
theorem c9_none_gives_empty : extract_text_from_file none = some "" := rfl

/-- C10: extension dispatch is a case-sensitive suffix match: a file whose
name ends with neither `.pdf` nor `.txt` (lowercase) makes
`extract_text_from_file` return the empty string, whatever the file's
contents — the theorem holds for every `content`, `pdfPages` and `pdfError`,
so the contents are never read. -/
theorem c10_other_suffix_empty (f : UploadedFile)
    (h1 : pyEndsWith f.name ".pdf" = false)
    (h2 : pyEndsWith f.name ".txt" = false) :
    extract_text_from_file (some f) = some "" := by
  unfold extract_text_from_file
  simp [h1, h2]

theorem c10_other_suffix_empty_witness :
    extract_text_from_file (some ⟨"syllabus.PDF", [0xFF], [some "page text"], none⟩) =
      some "" :=
  c10_other_suffix_empty ⟨"syllabus.PDF", [0xFF], [some "page text"], none⟩
    (by decide) (by decide)
